import Mathlib

/-!
Shallow embedding of `src/passwd/pwnam.c` (functions `de_username_to_uid`
and `de_groupname_to_gid`), which resolve a user or group name to its
numeric identifier via the reentrant OS lookups `getpwnam_r` / `getgrnam_r`
with a grow-on-ERANGE scratch buffer.

Modelling choices:
  * `size_t` arithmetic is `Nat` reduced modulo `2 ^ 64` where the C code
    can overflow (`buflen *= 2`); `long` (the `sysconf` result) is an `Int`
    constrained to the 64-bit range where it matters.
  * The OS collaborators are per-call oracles:
      - `sysconf(_SC_GET*_R_SIZE_MAX)` is an `Int` argument;
      - `realloc` success is `alloc : Nat → Nat → Bool` (iteration index,
        requested size) — when it fails, the old block stays allocated
        (C `realloc` semantics) and the C code has lost its pointer;
      - `getpwnam_r` / `getgrnam_r` is `String → Nat → OsReply`, a function
        of the queried name and the scratch-buffer size, returning the
        status `ec`, whether the result pointer `pp` was set, and the
        `pw_uid` / `gr_gid` field of the filled entry.
  * The loop at label `again:` is a fuel-indexed recursion; `none` means the
    fuel ran out (the C loop has no bound, so nontermination is `none` for
    every fuel).
  * Ghost instrumentation carried in the result, never influencing control
    flow: `live` (bytes of scratch memory still allocated at return),
    `queried` (the name/size pairs passed to the OS lookup, in order) and
    `cause` (which C `return` statement produced the result).
-/

namespace Pwnam

/-- Modulus of `size_t` arithmetic, `2 ^ 64` (LP64 target). -/
def SIZE_MOD : Nat := 2 ^ 64

/-- The POSIX `ERANGE` value tested by `ec == ERANGE` (34 on Linux). -/
def ERANGE : Int := 34

/-- Reply of one `getpwnam_r` / `getgrnam_r` call: the returned status
`ec`, whether `*pp` was set to the result entry, and the numeric id field
(`pw_uid` / `gr_gid`) of the filled record. -/
structure OsReply where
  ec : Int
  pp : Bool
  entryId : Nat
  deriving DecidableEq, Repr

/-- Ghost tag naming which `return` statement of the C function produced
the result (instrumentation only). -/
inductive ExitCause where
  | success
  | notFound
  | osError
  | allocFail
  deriving DecidableEq, Repr

/-- Observable outcome of one call, with ghost instrumentation. -/
structure CallResult where
  /-- The C return value: `0` on success, `-1` on failure. -/
  ret : Int
  /-- Final contents of the `*uid` / `*gid` cell supplied by the caller
  (the initial contents of the cell if never written). -/
  outId : Nat
  /-- Ghost: bytes of scratch memory still allocated when the function
  returns (`0` means every allocation was released). -/
  live : Nat
  /-- Ghost: the (name, buffer-size) arguments of each OS lookup issued,
  in order. -/
  queried : List (String × Nat)
  /-- Ghost: which exit path returned. -/
  cause : ExitCause
  deriving DecidableEq, Repr

/-- Lines 11-18 / 41-48: `buflen = 1024; sz = sysconf(...); if (sz > buflen)
buflen = sz;` — the comparison and the assignment convert the signed `sz`
to `size_t`. -/
def initBuflen (sz : Int) : Nat :=
  if 1024 < (sz % (SIZE_MOD : Int)).toNat then (sz % (SIZE_MOD : Int)).toNat
  else 1024

/-- Line 26 / 56: `buflen *= 2` in `size_t` arithmetic. -/
def nextBuflen (b : Nat) : Nat := (2 * b) % SIZE_MOD

/-- Lines 20-36 of `de_username_to_uid`, the loop at label `again:`.
Arguments after the oracles and the call inputs: fuel, iteration index
(feeds the `alloc` oracle), size of the currently allocated scratch block
(`0` = none), current `buflen`, ghost list of lookups issued so far. -/
def uidLoop (alloc : Nat → Nat → Bool) (getpwnam_r : String → Nat → OsReply)
    (name : String) (uid0 : Nat) :
    Nat → Nat → Nat → Nat → List (String × Nat) → Option CallResult
  | 0, _, _, _, _ => none
  | fuel + 1, n, live, buflen, queried =>
    -- buf = realloc(buf, buflen); if (!buf) return -1;
    -- (on realloc failure the old block stays allocated: `live` bytes leak)
    if alloc n buflen then
      -- ec = getpwnam_r(name, &p, buf, buflen, &pp);
      if (getpwnam_r name buflen).ec = ERANGE then
        -- if (ec == ERANGE) { buflen *= 2; goto again; }
        uidLoop alloc getpwnam_r name uid0 fuel (n + 1) buflen
          (nextBuflen buflen) (queried ++ [(name, buflen)])
      else if (getpwnam_r name buflen).ec ≠ 0 ∨ (getpwnam_r name buflen).pp = false then
        -- if (ec != 0 || !pp) { free(buf); return -1; }
        some ⟨-1, uid0, 0, queried ++ [(name, buflen)],
          if (getpwnam_r name buflen).ec ≠ 0 then ExitCause.osError
          else ExitCause.notFound⟩
      else
        -- *uid = p.pw_uid; free(buf); return 0;
        some ⟨0, (getpwnam_r name buflen).entryId, 0,
          queried ++ [(name, buflen)], ExitCause.success⟩
    else
      some ⟨-1, uid0, live, queried, ExitCause.allocFail⟩

/-- The function `int de_username_to_uid(const char *name, uid_t *uid)`
(lines 9-37). `uid0` is the initial contents of the `*uid` cell supplied
by the caller. -/
def de_username_to_uid (name : String) (uid0 : Nat) (sysconfPw : Int)
    (alloc : Nat → Nat → Bool) (getpwnam_r : String → Nat → OsReply)
    (fuel : Nat) : Option CallResult :=
  uidLoop alloc getpwnam_r name uid0 fuel 0 0 (initBuflen sysconfPw) []

/-- Lines 50-66 of `de_groupname_to_gid`, the loop at label `again:`
(same shape as `uidLoop`, querying `getgrnam_r`). -/
def gidLoop (alloc : Nat → Nat → Bool) (getgrnam_r : String → Nat → OsReply)
    (name : String) (gid0 : Nat) :
    Nat → Nat → Nat → Nat → List (String × Nat) → Option CallResult
  | 0, _, _, _, _ => none
  | fuel + 1, n, live, buflen, queried =>
    if alloc n buflen then
      if (getgrnam_r name buflen).ec = ERANGE then
        gidLoop alloc getgrnam_r name gid0 fuel (n + 1) buflen
          (nextBuflen buflen) (queried ++ [(name, buflen)])
      else if (getgrnam_r name buflen).ec ≠ 0 ∨ (getgrnam_r name buflen).pp = false then
        some ⟨-1, gid0, 0, queried ++ [(name, buflen)],
          if (getgrnam_r name buflen).ec ≠ 0 then ExitCause.osError
          else ExitCause.notFound⟩
      else
        some ⟨0, (getgrnam_r name buflen).entryId, 0,
          queried ++ [(name, buflen)], ExitCause.success⟩
    else
      some ⟨-1, gid0, live, queried, ExitCause.allocFail⟩

/-- The function `int de_groupname_to_gid(const char *name, gid_t *gid)`
(lines 39-67). -/
def de_groupname_to_gid (name : String) (gid0 : Nat) (sysconfGr : Int)
    (alloc : Nat → Nat → Bool) (getgrnam_r : String → Nat → OsReply)
    (fuel : Nat) : Option CallResult :=
  gidLoop alloc getgrnam_r name gid0 fuel 0 0 (initBuflen sysconfGr) []

/-- The one parameterised algorithm both C functions instantiate: the loop
abstracted over the OS lookup oracle. -/
def resolveLoop (alloc : Nat → Nat → Bool) (lookup : String → Nat → OsReply)
    (name : String) (id0 : Nat) :
    Nat → Nat → Nat → Nat → List (String × Nat) → Option CallResult
  | 0, _, _, _, _ => none
  | fuel + 1, n, live, buflen, queried =>
    if alloc n buflen then
      if (lookup name buflen).ec = ERANGE then
        resolveLoop alloc lookup name id0 fuel (n + 1) buflen
          (nextBuflen buflen) (queried ++ [(name, buflen)])
      else if (lookup name buflen).ec ≠ 0 ∨ (lookup name buflen).pp = false then
        some ⟨-1, id0, 0, queried ++ [(name, buflen)],
          if (lookup name buflen).ec ≠ 0 then ExitCause.osError
          else ExitCause.notFound⟩
      else
        some ⟨0, (lookup name buflen).entryId, 0,
          queried ++ [(name, buflen)], ExitCause.success⟩
    else
      some ⟨-1, id0, live, queried, ExitCause.allocFail⟩

/-- The parameterised resolver: `de_username_to_uid` is this with the
user-database oracles, `de_groupname_to_gid` with the group-database
oracles. -/
def resolveName (name : String) (id0 : Nat) (sysconfVal : Int)
    (alloc : Nat → Nat → Bool) (lookup : String → Nat → OsReply)
    (fuel : Nat) : Option CallResult :=
  resolveLoop alloc lookup name id0 fuel 0 0 (initBuflen sysconfVal) []

/-! ## Concrete oracle instances used by counterexamples and witnesses -/

/-- Allocator that grants every request. -/
def allocT : Nat → Nat → Bool := fun _ _ => true

/-- Allocator for the failing run of C1: the 1024-byte request succeeds,
the grown 2048-byte one fails. -/
def allocC1 : Nat → Nat → Bool := fun _ s => s == 1024

/-- Allocator that refuses every request. -/
def allocF : Nat → Nat → Bool := fun _ _ => false

/-- OS lookup for the failing run of C1: buffer-too-small at size 1024. -/
def osC1 : String → Nat → OsReply := fun _ s =>
  if s == 1024 then ⟨ERANGE, false, 0⟩ else ⟨0, true, 42⟩

/-- OS lookup that always matches, with identifier field 42. -/
def osOk : String → Nat → OsReply := fun _ _ => ⟨0, true, 42⟩

/-- OS lookup that never matches: `ec = 0`, result pointer NULL. -/
def osNotFound : String → Nat → OsReply := fun _ _ => ⟨0, false, 0⟩

/-- OS lookup for the failing run of C5: buffer-too-small exactly at size
`2 ^ 63`, not-found elsewhere. -/
def osC5 : String → Nat → OsReply := fun _ s =>
  if s == 2 ^ 63 then ⟨ERANGE, false, 0⟩ else ⟨0, false, 0⟩

/-- OS lookup for the counterexample of C6: buffer-too-small at every size up
to `2 ^ 63` — which covers every size the doubling loop ever visits when
it starts at 1024 (the powers `2 ^ 10 … 2 ^ 63` and, after the `size_t`
wrap, `0`) — and not-found at every larger size. -/
def osC6 : String → Nat → OsReply := fun _ s =>
  if s ≤ 2 ^ 63 then ⟨ERANGE, false, 0⟩ else ⟨0, false, 0⟩

/-- OS lookup that reports buffer-too-small below size 2048 and a match
from 2048 on. -/
def osW6 : String → Nat → OsReply := fun _ s =>
  if s < 2048 then ⟨ERANGE, true, 0⟩ else ⟨0, true, 9⟩

/-- The OS lookup answers something other than buffer-too-small at every
size `≥ N` (the precondition named by C6). -/
def eventuallyNotErange (lookup : String → Nat → OsReply) (name : String)
    (N : Nat) : Prop :=
  ∀ s, N ≤ s → (lookup name s).ec ≠ ERANGE

/-- The call never reaches a terminal state: whatever fuel it is given,
the loop is still searching when the fuel runs out. -/
def uidCallDiverges (name : String) (id0 : Nat) (sysconfVal : Int)
    (alloc : Nat → Nat → Bool) (lookup : String → Nat → OsReply) : Prop :=
  ∀ fuel, de_username_to_uid name id0 sysconfVal alloc lookup fuel = none

/-! ## Helper lemmas shared by several claims -/

lemma uidLoop_eq_resolveLoop (alloc : Nat → Nat → Bool)
    (lookup : String → Nat → OsReply) (name : String) (id0 : Nat) :
    ∀ fuel n live buflen queried,
      uidLoop alloc lookup name id0 fuel n live buflen queried =
        resolveLoop alloc lookup name id0 fuel n live buflen queried := by
  intro fuel
  induction fuel with
  | zero => intro n live buflen queried; rfl
  | succ fuel ih =>
    intro n live buflen queried
    simp only [uidLoop, resolveLoop, ih]

lemma gidLoop_eq_resolveLoop (alloc : Nat → Nat → Bool)
    (lookup : String → Nat → OsReply) (name : String) (id0 : Nat) :
    ∀ fuel n live buflen queried,
      gidLoop alloc lookup name id0 fuel n live buflen queried =
        resolveLoop alloc lookup name id0 fuel n live buflen queried := by
  intro fuel
  induction fuel with
  | zero => intro n live buflen queried; rfl
  | succ fuel ih =>
    intro n live buflen queried
    simp only [gidLoop, resolveLoop, ih]

lemma de_username_to_uid_eq_resolveName (name : String) (uid0 : Nat)
    (sysconfPw : Int) (alloc : Nat → Nat → Bool)
    (getpwnam_r : String → Nat → OsReply) (fuel : Nat) :
    de_username_to_uid name uid0 sysconfPw alloc getpwnam_r fuel =
      resolveName name uid0 sysconfPw alloc getpwnam_r fuel :=
  uidLoop_eq_resolveLoop alloc getpwnam_r name uid0 fuel 0 0 _ []

lemma de_groupname_to_gid_eq_resolveName (name : String) (gid0 : Nat)
    (sysconfGr : Int) (alloc : Nat → Nat → Bool)
    (getgrnam_r : String → Nat → OsReply) (fuel : Nat) :
    de_groupname_to_gid name gid0 sysconfGr alloc getgrnam_r fuel =
      resolveName name gid0 sysconfGr alloc getgrnam_r fuel :=
  gidLoop_eq_resolveLoop alloc getgrnam_r name gid0 fuel 0 0 _ []

/-! ## C1 — scratch-buffer release on every exit path -/

/-- C1: the claim that no exit path leaks fails on the code. When the
lookup reports ERANGE and the grown reallocation fails, `buf = realloc(buf,
buflen)` has overwritten the only pointer with NULL while the old block
stays allocated, and the function returns `-1` with the 1024-byte block
still live (`live = 1024 ≠ 0`), in both `de_username_to_uid` and
`de_groupname_to_gid`. -/
theorem C1_leak_on_realloc_failure :
    de_username_to_uid "alice" 7 0 allocC1 osC1 2 =
      some ⟨-1, 7, 1024, [("alice", 1024)], ExitCause.allocFail⟩ ∧
    de_groupname_to_gid "staff" 9 0 allocC1 osC1 2 =
      some ⟨-1, 9, 1024, [("staff", 1024)], ExitCause.allocFail⟩ ∧
    (1024 : Nat) ≠ 0 := by
  refine ⟨by decide, by decide, by decide⟩

/-! ## C8 — the two functions are instances of one parameterised algorithm -/

/-- C8: `de_username_to_uid` and `de_groupname_to_gid` are the same
parameterised algorithm `resolveName`, instantiated with the user-database
oracles and the group-database oracles respectively; in particular, fed
identical oracles they are extensionally equal. -/
theorem C8_same_parameterised_algorithm :
    ∀ (name : String) (id0 : Nat) (sysconfVal : Int)
      (alloc : Nat → Nat → Bool) (lookup : String → Nat → OsReply)
      (fuel : Nat),
      de_username_to_uid name id0 sysconfVal alloc lookup fuel =
        resolveName name id0 sysconfVal alloc lookup fuel ∧
      de_groupname_to_gid name id0 sysconfVal alloc lookup fuel =
        resolveName name id0 sysconfVal alloc lookup fuel ∧
      de_username_to_uid name id0 sysconfVal alloc lookup fuel =
        de_groupname_to_gid name id0 sysconfVal alloc lookup fuel := by
  intro name id0 sysconfVal alloc lookup fuel
  refine ⟨de_username_to_uid_eq_resolveName .., de_groupname_to_gid_eq_resolveName .., ?_⟩
  rw [de_username_to_uid_eq_resolveName, de_groupname_to_gid_eq_resolveName]

/-! ## C2 — ERANGE is retried transparently with a doubled buffer -/

/-- C2: when the scratch buffer was obtained and the OS lookup reports
buffer-too-small (ERANGE), neither function returns that outcome to the
caller: the result of the call is exactly that of a fresh loop iteration whose
buffer length is the previous one multiplied by exactly two in `size_t`
arithmetic, reissuing the same query with that buffer; the recursion
repeats until the lookup reports something other than ERANGE or buffer
growth (reallocation) fails. -/
theorem C2_erange_retried_with_doubled_buffer :
    ∀ (alloc : Nat → Nat → Bool) (lookup : String → Nat → OsReply)
      (name : String) (id0 fuel n live b : Nat) (q : List (String × Nat)),
      alloc n b = true → (lookup name b).ec = ERANGE →
      uidLoop alloc lookup name id0 (fuel + 1) n live b q =
        uidLoop alloc lookup name id0 fuel (n + 1) b (nextBuflen b)
          (q ++ [(name, b)]) ∧
      gidLoop alloc lookup name id0 (fuel + 1) n live b q =
        gidLoop alloc lookup name id0 fuel (n + 1) b (nextBuflen b)
          (q ++ [(name, b)]) ∧
      nextBuflen b = (2 * b) % SIZE_MOD := by
  intro alloc lookup name id0 fuel n live b q halloc herange
  refine ⟨?_, ?_, rfl⟩ <;>
    simp [uidLoop, gidLoop, halloc, herange, uidLoop_eq_resolveLoop,
      gidLoop_eq_resolveLoop]

/-- Closed instance of `C2_erange_retried_with_doubled_buffer`: at
iteration 2 with buffer size 1024, an always-succeeding allocator, and the
lookup `osC1`, which reports ERANGE at size 1024. -/
theorem C2_witness :
    uidLoop (fun _ _ => true) osC1 "x" 5 3 2 0 1024 [] =
      uidLoop (fun _ _ => true) osC1 "x" 5 2 3 1024 (nextBuflen 1024)
        ([] ++ [("x", 1024)]) ∧
    gidLoop (fun _ _ => true) osC1 "x" 5 3 2 0 1024 [] =
      gidLoop (fun _ _ => true) osC1 "x" 5 2 3 1024 (nextBuflen 1024)
        ([] ++ [("x", 1024)]) ∧
    nextBuflen 1024 = (2 * 1024) % SIZE_MOD :=
  C2_erange_retried_with_doubled_buffer (fun _ _ => true) osC1 "x" 5 2 2 0
    1024 [] (by decide) (by decide)

/-! ## C4 — success writes exactly the identifier of the matched entry -/

/-- C4: whenever the scratch buffer was obtained and the OS lookup
succeeds with a matched entry (`ec = 0`, result pointer set), each
function returns success (`ret = 0`) and writes to the output cell exactly
the numeric identifier field (`pw_uid` / `gr_gid`) of the matched entry,
releasing the scratch buffer. -/
theorem C4_success_writes_matched_id :
    ∀ (alloc : Nat → Nat → Bool) (lookup : String → Nat → OsReply)
      (name : String) (id0 fuel n live b : Nat) (q : List (String × Nat)),
      alloc n b = true → (lookup name b).ec = 0 → (lookup name b).pp = true →
      uidLoop alloc lookup name id0 (fuel + 1) n live b q =
        some ⟨0, (lookup name b).entryId, 0, q ++ [(name, b)],
          ExitCause.success⟩ ∧
      gidLoop alloc lookup name id0 (fuel + 1) n live b q =
        some ⟨0, (lookup name b).entryId, 0, q ++ [(name, b)],
          ExitCause.success⟩ := by
  intro alloc lookup name id0 fuel n live b q halloc hec hpp
  constructor <;> simp [uidLoop, gidLoop, halloc, hec, hpp, ERANGE]

/-- Closed instance of `C4_success_writes_matched_id` at buffer size 1024
under an always-matching lookup. -/
theorem C4_witness :
    uidLoop (fun _ _ => true) osOk "carol" 7 1 0 0 1024 [] =
      some ⟨0, 42, 0, [("carol", 1024)], ExitCause.success⟩ ∧
    gidLoop (fun _ _ => true) osOk "carol" 7 1 0 0 1024 [] =
      some ⟨0, 42, 0, [("carol", 1024)], ExitCause.success⟩ :=
  C4_success_writes_matched_id (fun _ _ => true) osOk "carol" 7 0 0 0 1024 []
    (by decide) (by decide) (by decide)

/-! ## C3 / C9 — the return-value contract and the output-cell frame -/

lemma resolveLoop_spec (alloc : Nat → Nat → Bool)
    (lookup : String → Nat → OsReply) (name : String) (id0 : Nat) :
    ∀ fuel n live b q r,
      resolveLoop alloc lookup name id0 fuel n live b q = some r →
      (r.ret = 0 ∧ r.cause = ExitCause.success) ∨
      (r.ret = -1 ∧ r.outId = id0 ∧
        (r.cause = ExitCause.notFound ∨ r.cause = ExitCause.osError ∨
         r.cause = ExitCause.allocFail)) := by
  intro fuel
  induction fuel with
  | zero => intro n live b q r h; exact absurd h (by simp [resolveLoop])
  | succ fuel ih =>
    intro n live b q r h
    simp only [resolveLoop] at h
    by_cases halloc : alloc n b = true
    · rw [if_pos halloc] at h
      by_cases herange : (lookup name b).ec = ERANGE
      · rw [if_pos herange] at h
        exact ih _ _ _ _ _ h
      · rw [if_neg herange] at h
        by_cases hfail : (lookup name b).ec ≠ 0 ∨ (lookup name b).pp = false
        · rw [if_pos hfail] at h
          injection h with h
          subst h
          refine Or.inr ⟨rfl, rfl, ?_⟩
          by_cases hec : (lookup name b).ec ≠ 0
          · rw [if_pos hec]; exact Or.inr (Or.inl rfl)
          · rw [if_neg hec]; exact Or.inl rfl
        · rw [if_neg hfail] at h
          injection h with h
          subst h
          exact Or.inl ⟨rfl, rfl⟩
    · rw [if_neg halloc] at h
      injection h with h
      subst h
      exact Or.inr ⟨rfl, rfl, Or.inr (Or.inr rfl)⟩

/-- C3: every completed call to either function returns `0` or `-1` and
nothing else; it returns `0` exactly when an entry was matched, and `-1`
exactly when the name was not found, the OS lookup failed with an error
other than buffer-too-small, or scratch-buffer allocation failed — one
generic failure value that does not distinguish the three causes. -/
theorem C3_binary_return_contract :
    ∀ (name : String) (id0 : Nat) (sysconfVal : Int)
      (alloc : Nat → Nat → Bool) (lookup : String → Nat → OsReply)
      (fuel : Nat) (r : CallResult),
      (de_username_to_uid name id0 sysconfVal alloc lookup fuel = some r ∨
       de_groupname_to_gid name id0 sysconfVal alloc lookup fuel = some r) →
      (r.ret = 0 ∨ r.ret = -1) ∧
      (r.ret = 0 ↔ r.cause = ExitCause.success) ∧
      (r.ret = -1 ↔ (r.cause = ExitCause.notFound ∨
        r.cause = ExitCause.osError ∨ r.cause = ExitCause.allocFail)) := by
  intro name id0 sysconfVal alloc lookup fuel r h
  have hspec : (r.ret = 0 ∧ r.cause = ExitCause.success) ∨
      (r.ret = -1 ∧ r.outId = id0 ∧
        (r.cause = ExitCause.notFound ∨ r.cause = ExitCause.osError ∨
         r.cause = ExitCause.allocFail)) := by
    rcases h with h | h
    · rw [de_username_to_uid, uidLoop_eq_resolveLoop] at h
      exact resolveLoop_spec alloc lookup name id0 _ _ _ _ _ _ h
    · rw [de_groupname_to_gid, gidLoop_eq_resolveLoop] at h
      exact resolveLoop_spec alloc lookup name id0 _ _ _ _ _ _ h
  rcases hspec with ⟨h0, hc⟩ | ⟨h1, _, hc⟩
  · rw [h0, hc]
    exact ⟨by decide, by decide, by decide⟩
  · rw [h1]
    rcases hc with hc | hc | hc <;> rw [hc] <;>
      exact ⟨by decide, by decide, by decide⟩

/-- Closed instance of `C3_binary_return_contract`: a successful run under
an always-matching lookup. -/
theorem C3_witness :
    ((⟨0, 42, 0, [("carol", 1024)], ExitCause.success⟩ : CallResult).ret = 0 ∨
     (⟨0, 42, 0, [("carol", 1024)], ExitCause.success⟩ : CallResult).ret = -1) ∧
    ((⟨0, 42, 0, [("carol", 1024)], ExitCause.success⟩ : CallResult).ret = 0 ↔
     (⟨0, 42, 0, [("carol", 1024)], ExitCause.success⟩ : CallResult).cause =
       ExitCause.success) ∧
    ((⟨0, 42, 0, [("carol", 1024)], ExitCause.success⟩ : CallResult).ret = -1 ↔
     ((⟨0, 42, 0, [("carol", 1024)], ExitCause.success⟩ : CallResult).cause =
        ExitCause.notFound ∨
      (⟨0, 42, 0, [("carol", 1024)], ExitCause.success⟩ : CallResult).cause =
        ExitCause.osError ∨
      (⟨0, 42, 0, [("carol", 1024)], ExitCause.success⟩ : CallResult).cause =
        ExitCause.allocFail)) :=
  C3_binary_return_contract "carol" 7 0 (fun _ _ => true) osOk 1
    ⟨0, 42, 0, [("carol", 1024)], ExitCause.success⟩ (Or.inl (by decide))

/-- C9: whenever either function returns failure (`-1`), the output cell
(`*uid` / `*gid`) supplied by the caller still holds its initial contents: the
functions write through the output pointer only on the success path. -/
theorem C9_failure_leaves_output_unchanged :
    ∀ (name : String) (id0 : Nat) (sysconfVal : Int)
      (alloc : Nat → Nat → Bool) (lookup : String → Nat → OsReply)
      (fuel : Nat) (r : CallResult),
      (de_username_to_uid name id0 sysconfVal alloc lookup fuel = some r ∨
       de_groupname_to_gid name id0 sysconfVal alloc lookup fuel = some r) →
      r.ret = -1 → r.outId = id0 := by
  intro name id0 sysconfVal alloc lookup fuel r h hret
  have hspec : (r.ret = 0 ∧ r.cause = ExitCause.success) ∨
      (r.ret = -1 ∧ r.outId = id0 ∧
        (r.cause = ExitCause.notFound ∨ r.cause = ExitCause.osError ∨
         r.cause = ExitCause.allocFail)) := by
    rcases h with h | h
    · rw [de_username_to_uid, uidLoop_eq_resolveLoop] at h
      exact resolveLoop_spec alloc lookup name id0 _ _ _ _ _ _ h
    · rw [de_groupname_to_gid, gidLoop_eq_resolveLoop] at h
      exact resolveLoop_spec alloc lookup name id0 _ _ _ _ _ _ h
  rcases hspec with ⟨h0, _⟩ | ⟨_, hout, _⟩
  · rw [h0] at hret; exact absurd hret (by decide)
  · exact hout

/-- Closed instance of `C9_failure_leaves_output_unchanged`: a not-found
run leaves the output cell at its initial value 7. -/
theorem C9_witness :
    (⟨-1, 7, 0, [("nobody", 1024)], ExitCause.notFound⟩ : CallResult).outId = 7 :=
  C9_failure_leaves_output_unchanged "nobody" 7 0 (fun _ _ => true)
    osNotFound 1 ⟨-1, 7, 0, [("nobody", 1024)], ExitCause.notFound⟩
    (Or.inl (by decide)) (by decide)

/-! ## C5 — strict growth of the buffer on each retry -/

/-- C5 as stated is false: the retry lengths are computed modulo `2 ^ 64`,
and doubling a length of `2 ^ 63` wraps to `0`. In this concrete run the
OS suggests a `2 ^ 63`-byte buffer (`sysconf` returned `LONG_MIN`), the
lookup reports buffer-too-small there, and the retry queries size `0` —
the ghost query log shows consecutive retry sizes `2 ^ 63` then `0`, and
`0` is not strictly greater. -/
theorem C5_counterexample :
    de_username_to_uid "x" 7 (-(2 ^ 63)) allocT osC5 2 =
      some ⟨-1, 7, 0, [("x", 2 ^ 63), ("x", 0)], ExitCause.notFound⟩ ∧
    de_groupname_to_gid "x" 7 (-(2 ^ 63)) allocT osC5 2 =
      some ⟨-1, 7, 0, [("x", 2 ^ 63), ("x", 0)], ExitCause.notFound⟩ ∧
    nextBuflen (2 ^ 63) = 0 ∧ ¬ (2 ^ 63 < nextBuflen (2 ^ 63)) := by
  refine ⟨by decide, by decide, by decide, by decide⟩

/-- C5 amended: each retry strictly increases the buffer length provided
the pre-retry length is nonzero and below `2 ^ 63`; at `2 ^ 63` and above
(and at `0`) the doubled length wraps modulo `2 ^ 64` and is not greater. -/
theorem C5_retry_strictly_grows_below_wrap :
    ∀ (alloc : Nat → Nat → Bool) (lookup : String → Nat → OsReply)
      (name : String) (id0 fuel n live b : Nat) (q : List (String × Nat)),
      alloc n b = true → (lookup name b).ec = ERANGE →
      0 < b → b < 2 ^ 63 →
      uidLoop alloc lookup name id0 (fuel + 1) n live b q =
        uidLoop alloc lookup name id0 fuel (n + 1) b (nextBuflen b)
          (q ++ [(name, b)]) ∧
      gidLoop alloc lookup name id0 (fuel + 1) n live b q =
        gidLoop alloc lookup name id0 fuel (n + 1) b (nextBuflen b)
          (q ++ [(name, b)]) ∧
      b < nextBuflen b := by
  intro alloc lookup name id0 fuel n live b q halloc herange hpos hlt
  have hdouble : nextBuflen b = 2 * b := by
    unfold nextBuflen SIZE_MOD
    exact Nat.mod_eq_of_lt (by omega)
  refine ⟨?_, ?_, by omega⟩ <;> simp [uidLoop, gidLoop, halloc, herange]

/-- Closed instance of `C5_retry_strictly_grows_below_wrap` at buffer size
1024 under an always-granting allocator and the ERANGE-at-1024 lookup. -/
theorem C5_witness :
    uidLoop allocT osC1 "y" 6 5 0 0 1024 [] =
      uidLoop allocT osC1 "y" 6 4 1 1024 (nextBuflen 1024) ([] ++ [("y", 1024)]) ∧
    gidLoop allocT osC1 "y" 6 5 0 0 1024 [] =
      gidLoop allocT osC1 "y" 6 4 1 1024 (nextBuflen 1024) ([] ++ [("y", 1024)]) ∧
    1024 < nextBuflen 1024 :=
  C5_retry_strictly_grows_below_wrap allocT osC1 "y" 6 4 0 0 1024 []
    (by decide) (by decide) (by decide) (by norm_num)

/-! ## C7 — the initial buffer size and the per-call size query -/

/-- C7 as stated is false: when the OS-suggested minimum is 512, the
initial scratch buffer is 1024 bytes (the hard-coded default), not the
suggested 512 — the one lookup of this successful run was issued with
buffer size 1024. -/
theorem C7_counterexample :
    initBuflen 512 = 1024 ∧
    de_username_to_uid "x" 7 512 allocT osOk 1 =
      some ⟨0, 42, 0, [("x", 1024)], ExitCause.success⟩ ∧
    de_groupname_to_gid "x" 7 512 allocT osOk 1 =
      some ⟨0, 42, 0, [("x", 1024)], ExitCause.success⟩ ∧
    (1024 : Nat) ≠ 512 := by
  refine ⟨by decide, by decide, by decide, by decide⟩

lemma resolveLoop_queried_extends (alloc : Nat → Nat → Bool)
    (lookup : String → Nat → OsReply) (name : String) (id0 : Nat) :
    ∀ fuel n live b q r,
      resolveLoop alloc lookup name id0 fuel n live b q = some r →
      r.queried = q ∨ ∃ t, r.queried = q ++ (name, b) :: t := by
  intro fuel
  induction fuel with
  | zero => intro n live b q r h; exact absurd h (by simp [resolveLoop])
  | succ fuel ih =>
    intro n live b q r h
    simp only [resolveLoop] at h
    by_cases halloc : alloc n b = true
    · rw [if_pos halloc] at h
      by_cases herange : (lookup name b).ec = ERANGE
      · rw [if_pos herange] at h
        rcases ih _ _ _ _ _ h with hq | ⟨t, hq⟩
        · exact Or.inr ⟨[], by simpa using hq⟩
        · exact Or.inr ⟨(name, nextBuflen b) :: t, by simpa using hq⟩
      · rw [if_neg herange] at h
        by_cases hfail : (lookup name b).ec ≠ 0 ∨ (lookup name b).pp = false
        · rw [if_pos hfail] at h
          injection h with h
          subst h
          exact Or.inr ⟨[], rfl⟩
        · rw [if_neg hfail] at h
          injection h with h
          subst h
          exact Or.inr ⟨[], rfl⟩
    · rw [if_neg halloc] at h
      injection h with h
      subst h
      exact Or.inl rfl

/-- C7 amended: the OS size-suggestion facility is consulted at the start
of each call (it is an input of every call, nothing is cached), and the
initial scratch-buffer size is the *larger of the hard-coded 1024-byte
default and the suggestion converted to the unsigned size type* — so the
first OS lookup of a call, when one happens at all, is issued with exactly
that size. -/
theorem C7_initial_size_max_of_default_and_suggestion :
    ∀ (name : String) (id0 : Nat) (sysconfVal : Int)
      (alloc : Nat → Nat → Bool) (lookup : String → Nat → OsReply)
      (fuel : Nat) (r : CallResult),
      (de_username_to_uid name id0 sysconfVal alloc lookup fuel = some r ∨
       de_groupname_to_gid name id0 sysconfVal alloc lookup fuel = some r) →
      initBuflen sysconfVal =
        max 1024 ((sysconfVal % (SIZE_MOD : Int)).toNat) ∧
      (r.queried = [] ∨
        ∃ t, r.queried = (name, initBuflen sysconfVal) :: t) := by
  intro name id0 sysconfVal alloc lookup fuel r h
  constructor
  · unfold initBuflen
    rcases Nat.lt_or_ge 1024 ((sysconfVal % (SIZE_MOD : Int)).toNat) with hlt | hge
    · rw [if_pos hlt]; omega
    · rw [if_neg (by omega)]; omega
  · have h' : resolveLoop alloc lookup name id0 fuel 0 0
        (initBuflen sysconfVal) [] = some r := by
      rcases h with h | h
      · rw [de_username_to_uid, uidLoop_eq_resolveLoop] at h; exact h
      · rw [de_groupname_to_gid, gidLoop_eq_resolveLoop] at h; exact h
    rcases resolveLoop_queried_extends alloc lookup name id0 _ _ _ _ _ _ h'
      with hq | ⟨t, hq⟩
    · exact Or.inl hq
    · exact Or.inr ⟨t, by simpa using hq⟩

/-- Closed instance of `C7_initial_size_max_of_default_and_suggestion`:
with suggestion 512 the initial size is `max 1024 512 = 1024` and the
one lookup of the successful run used size `initBuflen 512`. -/
theorem C7_witness :
    initBuflen 512 = max 1024 (((512 : Int) % (SIZE_MOD : Int)).toNat) ∧
    ((⟨0, 42, 0, [("x", 1024)], ExitCause.success⟩ : CallResult).queried = [] ∨
      ∃ t, (⟨0, 42, 0, [("x", 1024)], ExitCause.success⟩ : CallResult).queried =
        ("x", initBuflen 512) :: t) :=
  C7_initial_size_max_of_default_and_suggestion "x" 7 512 allocT osOk 1
    ⟨0, 42, 0, [("x", 1024)], ExitCause.success⟩ (Or.inl (by decide))

/-! ## C10 — negative `sysconf` result converts to an enormous size -/

/-- C10: when `sysconf` reports an indeterminate limit (any negative
`long`, e.g. `-1`), the signed value is converted to the unsigned size
type in both the comparison `sz > buflen` and the assignment `buflen =
sz`, so the initial buffer length is at least `2 ^ 63` (`-1` gives exactly
`SIZE_MAX = 2 ^ 64 - 1`); the allocator refuses such a request, and the
call returns `-1` having issued no lookup at all (empty ghost query log). -/
theorem C10_negative_suggestion_gives_enormous_buffer :
    ∀ (sz : Int) (name : String) (id0 : Nat)
      (alloc galloc : Nat → Nat → Bool)
      (lookup glookup : String → Nat → OsReply) (fuel : Nat),
      -(2 ^ 63) ≤ sz → sz < 0 →
      alloc 0 (initBuflen sz) = false → galloc 0 (initBuflen sz) = false →
      2 ^ 63 ≤ initBuflen sz ∧
      initBuflen (-1) = 2 ^ 64 - 1 ∧
      de_username_to_uid name id0 sz alloc lookup (fuel + 1) =
        some ⟨-1, id0, 0, [], ExitCause.allocFail⟩ ∧
      de_groupname_to_gid name id0 sz galloc glookup (fuel + 1) =
        some ⟨-1, id0, 0, [], ExitCause.allocFail⟩ := by
  intro sz name id0 alloc galloc lookup glookup fuel hlo hneg halloc hgalloc
  have hS : (SIZE_MOD : Int) = (2 : Int) ^ 64 := by norm_num [SIZE_MOD]
  have hbig : 2 ^ 63 ≤ (sz % (SIZE_MOD : Int)).toNat := by
    rw [hS]; omega
  have hinit : 2 ^ 63 ≤ initBuflen sz := by
    unfold initBuflen
    rw [if_pos (by omega)]
    exact hbig
  refine ⟨hinit, by decide, ?_, ?_⟩
  · rw [de_username_to_uid]; simp [uidLoop, halloc]
  · rw [de_groupname_to_gid]; simp [gidLoop, hgalloc]

/-- Closed instance of `C10_negative_suggestion_gives_enormous_buffer` at
`sysconf` result `-1` with an allocator that refuses every request. -/
theorem C10_witness :
    2 ^ 63 ≤ initBuflen (-1) ∧
    initBuflen (-1) = 2 ^ 64 - 1 ∧
    de_username_to_uid "x" 7 (-1) allocF osOk 1 =
      some ⟨-1, 7, 0, [], ExitCause.allocFail⟩ ∧
    de_groupname_to_gid "x" 7 (-1) allocF osOk 1 =
      some ⟨-1, 7, 0, [], ExitCause.allocFail⟩ :=
  C10_negative_suggestion_gives_enormous_buffer (-1) "x" 7 allocF allocF
    osOk osOk 0 (by norm_num) (by norm_num) (by decide) (by decide)

/-! ## C6 — termination of the retry loop -/

lemma osC6_loop_diverges :
    ∀ fuel n live b q,
      (b = 0 ∨ ∃ k, 10 ≤ k ∧ k ≤ 63 ∧ b = 2 ^ k) →
      uidLoop allocT osC6 "x" 7 fuel n live b q = none := by
  intro fuel
  induction fuel with
  | zero => intro n live b q _; rfl
  | succ fuel ih =>
    intro n live b q hb
    have hble : b ≤ 2 ^ 63 := by
      rcases hb with rfl | ⟨k, _, hk63, rfl⟩
      · exact Nat.zero_le _
      · exact Nat.pow_le_pow_right (by norm_num) hk63
    have hec : (osC6 "x" b).ec = ERANGE := by
      unfold osC6
      rw [if_pos hble]
    have hnext : nextBuflen b = 0 ∨ ∃ k, 10 ≤ k ∧ k ≤ 63 ∧ nextBuflen b = 2 ^ k := by
      rcases hb with rfl | ⟨k, hk10, hk63, rfl⟩
      · left; rfl
      · rcases Nat.lt_or_ge k 63 with hk | hk
        · refine Or.inr ⟨k + 1, by omega, by omega, ?_⟩
          unfold nextBuflen SIZE_MOD
          rw [← pow_succ']
          exact Nat.mod_eq_of_lt (Nat.pow_lt_pow_right (by norm_num) (by omega))
        · have hk' : k = 63 := by omega
          subst hk'
          left
          unfold nextBuflen SIZE_MOD
          norm_num [← pow_succ']
    simp only [uidLoop, allocT, if_true]
    rw [if_pos hec]
    exact ih _ _ _ _ hnext

/-- C6 as stated is false: the precondition "for every sufficiently large
buffer size the lookup is non-ERANGE" does not guarantee termination,
because `buflen *= 2` wraps `2 ^ 63` to `0` in `size_t` arithmetic. The
lookup `osC6` answers non-ERANGE at every size above `2 ^ 63` — the
precondition holds with threshold `2 ^ 63 + 1` — yet starting from the
default 1024 the visited sizes are `2 ^ 10, …, 2 ^ 63, 0, 0, …`, all
answered ERANGE, and the call never reaches a terminal state. -/
theorem C6_counterexample :
    eventuallyNotErange osC6 "x" (2 ^ 63 + 1) ∧
    uidCallDiverges "x" 7 0 allocT osC6 := by
  constructor
  · intro s hs
    unfold osC6
    rw [if_neg (by omega)]
    unfold ERANGE
    norm_num
  · intro fuel
    rw [de_username_to_uid]
    exact osC6_loop_diverges fuel 0 0 (initBuflen 0) []
      (Or.inr ⟨10, by omega, by omega, by decide⟩)

lemma resolveLoop_terminal_step (alloc : Nat → Nat → Bool)
    (lookup : String → Nat → OsReply) (name : String) (id0 : Nat)
    (n live b : Nat) (q : List (String × Nat))
    (herange : ¬ (lookup name b).ec = ERANGE) :
    ∃ r, resolveLoop alloc lookup name id0 (0 + 1) n live b q = some r := by
  by_cases halloc : alloc n b = true
  · by_cases hfail : (lookup name b).ec ≠ 0 ∨ (lookup name b).pp = false
    · refine ⟨⟨-1, id0, 0, q ++ [(name, b)],
        if (lookup name b).ec ≠ 0 then ExitCause.osError
        else ExitCause.notFound⟩, ?_⟩
      simp only [resolveLoop]
      rw [if_pos halloc, if_neg herange, if_pos hfail]
    · refine ⟨⟨0, (lookup name b).entryId, 0, q ++ [(name, b)],
        ExitCause.success⟩, ?_⟩
      simp only [resolveLoop]
      rw [if_pos halloc, if_neg herange, if_neg hfail]
  · refine ⟨⟨-1, id0, live, q, ExitCause.allocFail⟩, ?_⟩
    simp only [resolveLoop]
    rw [if_neg halloc]

lemma resolveLoop_reaches_terminal (alloc : Nat → Nat → Bool)
    (lookup : String → Nat → OsReply) (name : String) (id0 N : Nat)
    (hN : N ≤ 2 ^ 63)
    (hstab : ∀ s, N ≤ s → (lookup name s).ec ≠ ERANGE) :
    ∀ m b, N - b ≤ m → 0 < b → ∀ n live q,
      ∃ fuel r, resolveLoop alloc lookup name id0 fuel n live b q = some r := by
  intro m
  induction m with
  | zero =>
    intro b hm hb n live q
    obtain ⟨r, hr⟩ := resolveLoop_terminal_step alloc lookup name id0 n live
      b q (hstab b (by omega))
    exact ⟨0 + 1, r, hr⟩
  | succ m ih =>
    intro b hm hb n live q
    by_cases herange : (lookup name b).ec = ERANGE
    · by_cases halloc : alloc n b = true
      · have hbN : b < N := by
          by_contra hc
          exact hstab b (by omega) herange
        have hdouble : nextBuflen b = 2 * b := by
          unfold nextBuflen SIZE_MOD
          exact Nat.mod_eq_of_lt (by omega)
        obtain ⟨fuel, r, hr⟩ := ih (nextBuflen b) (by omega) (by omega)
          (n + 1) b (q ++ [(name, b)])
        refine ⟨fuel + 1, r, ?_⟩
        simp only [resolveLoop]
        rw [if_pos halloc, if_pos herange]
        exact hr
      · refine ⟨0 + 1, ⟨-1, id0, live, q, ExitCause.allocFail⟩, ?_⟩
        simp only [resolveLoop]
        rw [if_neg halloc]
    · obtain ⟨r, hr⟩ := resolveLoop_terminal_step alloc lookup name id0 n live
        b q herange
      exact ⟨0 + 1, r, hr⟩

lemma initBuflen_pos (sz : Int) : 0 < initBuflen sz := by
  unfold initBuflen
  split <;> omega

/-- C6 amended: the loop runs only while the OS lookup reports
buffer-too-small and every other outcome (including allocation failure)
is terminal; it is guaranteed to reach a terminal state after finitely
many iterations when the non-ERANGE threshold `N` additionally satisfies
`N ≤ 2 ^ 63` — a size the strictly-doubling phase actually attains before
`size_t` wrap-around — whereas for thresholds above `2 ^ 63` the wrap to
`0` can make the loop cycle forever (see the counterexample). -/
theorem C6_terminates_for_attainable_thresholds :
    ∀ (name : String) (id0 : Nat) (sysconfVal : Int)
      (alloc : Nat → Nat → Bool) (lookup : String → Nat → OsReply) (N : Nat),
      N ≤ 2 ^ 63 → eventuallyNotErange lookup name N →
      (∃ fuel r, de_username_to_uid name id0 sysconfVal alloc lookup fuel =
        some r) ∧
      (∃ fuel r, de_groupname_to_gid name id0 sysconfVal alloc lookup fuel =
        some r) := by
  intro name id0 sysconfVal alloc lookup N hN hstab
  obtain ⟨fuel, r, hr⟩ := resolveLoop_reaches_terminal alloc lookup name id0 N
    hN hstab (N - initBuflen sysconfVal) (initBuflen sysconfVal) le_rfl
    (initBuflen_pos sysconfVal) 0 0 []
  constructor
  · exact ⟨fuel, r, by rw [de_username_to_uid, uidLoop_eq_resolveLoop]; exact hr⟩
  · exact ⟨fuel, r, by rw [de_groupname_to_gid, gidLoop_eq_resolveLoop]; exact hr⟩

/-- Closed instance of `C6_terminates_for_attainable_thresholds` with
threshold 2048: the lookup `osW6` is ERANGE below 2048 and matches from
2048 on, and both calls reach a terminal state. -/
theorem C6_witness :
    (∃ fuel r, de_username_to_uid "bob" 5 0 allocT osW6 fuel = some r) ∧
    (∃ fuel r, de_groupname_to_gid "bob" 5 0 allocT osW6 fuel = some r) :=
  C6_terminates_for_attainable_thresholds "bob" 5 0 allocT osW6 2048
    (by norm_num) (fun s hs => by
      unfold osW6
      rw [if_neg (by omega)]
      unfold ERANGE
      norm_num)

end Pwnam
